import Mathlib

/-!
Shallow embedding of `yeti_utils.py`, a Maya automation script driving the
Yeti fur plugin's node-graph command language.

The host (Maya plus the Yeti plugin) is opaque: every entity lives in the
host and is touched only through commands.  We model the host's read-only
queries as fields of a `Scene` record, and every mutating command issued by
the script as an `Event` in a trace.  Graph nodes freshly created by the
host (`pgYetiGraph -create`) are given names from a counter; the counter and
the open/closed state of the Yeti graph-editor window form the threaded
state `Gst`.  Python code that can raise (indexing a `None` result of
`listRelatives`/`listConnections`, `dict`/`keys()[0]` on an empty dict,
unknown keys of the literal type dictionaries) is modelled with
`Except String`.
-/

namespace YetiUtils

/-- A parameter value passed to the Yeti `setParamValue*` commands. -/
inductive PVal where
  | scalar (v : Int)
  | str (v : String)
deriving DecidableEq, Repr

/-- One host command issued by the script (a mutation of host state). -/
inductive Event where
  | select (obj : String)
  | convertToCurves (groom : String)
  | setsAdd (objs : List String) (objset : String)
  | warning (msg : String)
  | addGuideSet (guide_set yeti : String)
  | createNode (yeti ty node : String)
  | disconnectInput (yeti node : String) (input : Nat)
  | renameNode (yeti oldName newName : String)
  | setParam (yeti param node cmd : String) (val : PVal)
  | setAttr (attr : String) (val : Int)
  | connect (yeti from_node to_node : String) (input : Nat)
  | tearOff
  | deleteWin
deriving DecidableEq, Repr

/-- An import node of a Yeti graph, with the two parameters the script
reads: its "type" parameter (an integer code) and its "geometry"
parameter (the selection string). -/
structure ImpNode where
  name : String
  typeParam : Int
  geomParam : String
deriving DecidableEq, Repr

/-- The opaque host scene: every read-only query the script performs.
`convBefore`/`convAfter` give the global nurbs-curve list just before and
just after the `-convertToCurves` command runs for a given groom. -/
structure Scene where
  selection : List String
  objType : String → String
  shapes : String → List String
  parent : String → List String
  objSets : String → List String
  yetis : String → List String
  convBefore : String → List String
  convAfter : String → List String
  imports : String → List ImpNode

/-- Threaded state: the fresh-name counter for host-created graph nodes and
whether the Yeti graph-editor window is currently open. -/
structure Gst where
  k : Nat
  w : Bool
deriving DecidableEq, Repr

/-- The host name of the n-th graph node created by `pgYetiGraph -create`. -/
def nodeName (k : Nat) : String := "node" ++ toString k

/-- Indexing `[0]` into a host list result; Maya returns `None` when the
list would be empty, so indexing raises. -/
def head_or_err (l : List String) : Except String String :=
  match l with
  | [] => .error "TypeError"
  | x :: _ => .ok x

/-- `get_sel_grooms` body: for each selected object, a transform is
replaced by its first shape child, and the handle is kept when its type is
`pgYetiGroom`. -/
def resolve_sel (sc : Scene) : List String → Except String (List String)
  | [] => .ok []
  | obj :: rest =>
    match (if sc.objType obj == "transform" then head_or_err (sc.shapes obj) else .ok obj) with
    | .error e => .error e
    | .ok shape =>
      match resolve_sel sc rest with
      | .error e => .error e
      | .ok tail =>
        if sc.objType shape == "pgYetiGroom" then .ok (shape :: tail) else .ok tail

/-- `get_sel_grooms()`: groom shape nodes from the current selection. -/
def get_sel_grooms (sc : Scene) : Except String (List String) :=
  resolve_sel sc sc.selection

/-- The parent transforms of a list of curve shapes
(`[cmds.listRelatives(c, parent=1)[0] for c in new_curves]`). -/
def parents_of (sc : Scene) : List String → Except String (List String)
  | [] => .ok []
  | c :: rest =>
    match head_or_err (sc.parent c) with
    | .error e => .error e
    | .ok p =>
      match parents_of sc rest with
      | .error e => .error e
      | .ok ps => .ok (p :: ps)

/-- The curves created by the `-convertToCurves` command for `groom`:
the after-snapshot filtered by absence from the before-snapshot. -/
def new_curves_of (sc : Scene) (groom : String) : List String :=
  (sc.convAfter groom).filter (fun c => !((sc.convBefore groom).contains c))

/-- `groom_to_curves(groom)`: runs the convert command, diffs the global
curve list, adds the new curve transforms to the guide set connected to
the first new curve's parent, and returns the one-entry dict from the
guide set to the new curve shapes (empty dict when no curves appeared). -/
def groom_to_curves (sc : Scene) (groom : String) :
    Except String (List Event × List (String × List String)) :=
  let new_curves := new_curves_of sc groom
  match parents_of sc new_curves with
  | .error e => .error e
  | .ok new_curves_transforms =>
    match new_curves with
    | [] => .ok ([.select groom, .convertToCurves groom], [])
    | c0 :: _ =>
      match head_or_err (sc.parent c0) with
      | .error e => .error e
      | .ok transform =>
        match head_or_err (sc.objSets transform) with
        | .error e => .error e
        | .ok guide_set =>
          .ok ([.select groom, .convertToCurves groom,
                .setsAdd new_curves_transforms guide_set],
               [(guide_set, new_curves)])

/-- `yetis_from_groom(groom)`: the Yeti nodes a groom is connected to. -/
def yetis_from_groom (sc : Scene) (groom : String) : List String :=
  sc.yetis groom

/-- `refresh_graph()`: `pgYetiTearOffGraphPanel` opens the Yeti graph
window, then the window is deleted when it is listed among open windows.
The incoming window state is overwritten by the tear-off, so the net
effect never depends on it. -/
def refresh_graph (_w : Bool) : List Event × Bool :=
  let w1 := true
  if w1 then ([.tearOff, .deleteWin], false) else ([.tearOff], w1)

/-- `create_node(yeti, type, name=None)`: create a graph node (the host
returns a fresh name), disconnect its input 0, optionally rename it, then
refresh the graph window. -/
def create_node (yeti ty : String) (name : Option String) (st : Gst) :
    List Event × String × Gst :=
  let node := nodeName st.k
  let ev1 : List Event := [.createNode yeti ty node, .disconnectInput yeti node 0]
  let (ev2, node2) :=
    match name with
    | some n => ([Event.renameNode yeti node n], n)
    | none => ([], node)
  let (re, w2) := refresh_graph st.w
  (ev1 ++ ev2 ++ re, node2, { k := st.k + 1, w := w2 })

/-- The literal `type_dict` of `get_imports`: logical import type to the
host's integer code. -/
def import_type_codes : String → Option Int
  | "geometry" => some 0
  | "groom" => some 1
  | "guides" => some 2
  | "feather" => some 3
  | "braid" => some 4
  | _ => none

/-- Python truthiness of the optional `selection` argument: `None` and the
empty string are falsy. -/
def sel_given : Option String → Bool
  | none => false
  | some s => !(s == "")

/-- The filtering loop of `get_imports`: keep import nodes whose "type"
parameter equals the requested code and, when a truthy selection string is
given, whose "geometry" parameter is literally equal to it. -/
def filter_imports (code : Int) (sel : Option String) : List ImpNode → List String
  | [] => []
  | node :: rest =>
    let tail := filter_imports code sel rest
    if node.typeParam == code then
      if sel_given sel then
        (if some node.geomParam == sel then node.name :: tail else tail)
      else node.name :: tail
    else tail

/-- `get_imports(yeti, type, selection=None)`: list import nodes of the
requested logical type, optionally filtered by the selection string; an
unknown logical type raises `KeyError` on the literal dict. -/
def get_imports (sc : Scene) (yeti ty : String) (selection : Option String) :
    Except String (List String) :=
  match import_type_codes ty with
  | .none => .error "KeyError"
  | .some code => .ok (filter_imports code selection (sc.imports yeti))

/-- The literal `type_dict` of `set_param`: parameter kind to the Yeti
command flag (the source's `'setParamValueString '` has a trailing space,
kept here). -/
def set_param_cmds : String → Option String
  | "scalar" => some "setParamValueScalar"
  | "string" => some "setParamValueString "
  | "vector" => some "setParamValueVector"
  | "expression" => some "setParamValueExpr"
  | "boolean" => some "setParamValueBoolean"
  | _ => none

/-- `set_param(yeti, param, node, val, type)`: issue the typed
`setParamValue*` command, then refresh the graph window. -/
def set_param (yeti param node : String) (val : PVal) (ty : String) (st : Gst) :
    Except String (List Event × Gst) :=
  match set_param_cmds ty with
  | .none => .error "KeyError"
  | .some cmd =>
    let (re, w2) := refresh_graph st.w
    .ok ([Event.setParam yeti param node cmd val] ++ re, { st with w := w2 })

/-- `connect_nodes(yeti, from_node, to_node, input)`: issue the connect
command, then refresh the graph window. -/
def connect_nodes (yeti from_node to_node : String) (input : Nat) (st : Gst) :
    List Event × Gst :=
  let (re, w2) := refresh_graph st.w
  ([Event.connect yeti from_node to_node input] ++ re, { st with w := w2 })

/-- The first warning of the orchestrator: no groom imports found. -/
def noGroomsMsg (yeti : String) : String :=
  "Yeti node: " ++ yeti ++ " has no grooms imported in the graph, skipping..."

/-- The second warning of the orchestrator: geometry import count is not 1. -/
def geoMsg (yeti : String) : String :=
  "Yeti node: " ++ yeti ++ " has several geometry import nodes, skipping..."

/-- Python dict lookup `groom_dict[key]` on the association-list model;
an absent key raises `KeyError`. -/
def dict_get (gd : List (String × List String)) (key : String) :
    Except String (List String) :=
  match gd.lookup key with
  | some v => .ok v
  | none => .error "KeyError"

/-- The per-curve attribute loop of `guided_grooms`: for each guide curve,
set weight 10 and tip/base attraction 1. -/
def set_guide_attrs : List String → List Event
  | [] => []
  | guide :: rest =>
    [Event.setAttr (guide ++ ".weight") 10,
     Event.setAttr (guide ++ ".tipAttraction") 1,
     Event.setAttr (guide ++ ".baseAttraction") 1] ++ set_guide_attrs rest

/-- The inner loop of `guided_grooms` over the groom-import nodes: for each
one create a convert node, connect the groom import and the
geometry import into it (ports 0 and 1), create a guide node fed by the convert
node and the guide import (ports 0 and 1), and a blend node fed by the
convert node and the guide node (ports 0 and 1). -/
def wire_groom_nodes (yeti geo0 guide_import : String) :
    List String → Gst → List Event × Gst
  | [], st => ([], st)
  | groom_node :: rest, st =>
    let (e1, convert_node, st1) := create_node yeti "convert" none st
    let (e2, st2) := connect_nodes yeti groom_node convert_node 0 st1
    let (e3, st3) := connect_nodes yeti geo0 convert_node 1 st2
    let (e4, guide_node, st4) := create_node yeti "guide" none st3
    let (e5, st5) := connect_nodes yeti convert_node guide_node 0 st4
    let (e6, st6) := connect_nodes yeti guide_import guide_node 1 st5
    let (e7, blend_node, st7) := create_node yeti "blend" none st6
    let (e8, st8) := connect_nodes yeti convert_node blend_node 0 st7
    let (e9, st9) := connect_nodes yeti guide_node blend_node 1 st8
    let (er, str) := wire_groom_nodes yeti geo0 guide_import rest st9
    (e1 ++ e2 ++ e3 ++ e4 ++ e5 ++ e6 ++ e7 ++ e8 ++ e9 ++ er, str)

/-- The per-Yeti-instance body of `guided_grooms`: query geometry imports,
query groom imports by the groom's identity with a wildcard fallback,
skip with one warning when there are no groom imports or when the
geometry-import count differs from 1, and otherwise register the guide
set, create the guide import, set its parameters, set the guide-curve
attributes, and wire a convert/guide/blend triple per groom import. -/
def process_yeti (sc : Scene) (groom : String) (gd : List (String × List String))
    (yeti : String) (st : Gst) : Except String (List Event × Gst) :=
  match get_imports sc yeti "geometry" none with
  | .error e => .error e
  | .ok geo_nodes =>
    match get_imports sc yeti "groom" (some groom) with
    | .error e => .error e
    | .ok first_groom_nodes =>
      match (if first_groom_nodes.isEmpty then
               get_imports sc yeti "groom" (some "*")
             else .ok first_groom_nodes) with
      | .error e => .error e
      | .ok groom_nodes =>
        if groom_nodes.isEmpty then
          .ok ([.warning (noGroomsMsg yeti)], st)
        else if geo_nodes.length ≠ 1 then
          .ok ([.warning (geoMsg yeti)], st)
        else
          match gd with
          | [] => .error "IndexError"
          | (guide_set, _) :: _ =>
            match dict_get gd guide_set with
            | .error e => .error e
            | .ok curves =>
              let e0 : List Event := [.addGuideSet guide_set yeti]
              let (e1, guide_import, st1) := create_node yeti "import" (some guide_set) st
              match set_param yeti "type" guide_import (PVal.scalar 2) "scalar" st1 with
              | .error e => .error e
              | .ok (e2, st2) =>
                match set_param yeti "geometry" guide_import (PVal.str guide_set) "string" st2 with
                | .error e => .error e
                | .ok (e3, st3) =>
                  let e4 : List Event :=
                    Event.setAttr (guide_set ++ ".maxNumberOfGuideInfluences") 1
                      :: set_guide_attrs curves
                  let (e5, st4) := wire_groom_nodes yeti (geo_nodes.headD "") guide_import groom_nodes st3
                  .ok (e0 ++ e1 ++ e2 ++ e3 ++ e4 ++ e5, st4)

/-- The inner `for yeti in yeti_nodes` loop of `guided_grooms`. -/
def process_yetis (sc : Scene) (groom : String) (gd : List (String × List String)) :
    List String → Gst → Except String (List Event × Gst)
  | [], st => .ok ([], st)
  | yeti :: rest, st =>
    match process_yeti sc groom gd yeti st with
    | .error e => .error e
    | .ok (e1, st1) =>
      match process_yetis sc groom gd rest st1 with
      | .error e => .error e
      | .ok (e2, st2) => .ok (e1 ++ e2, st2)

/-- One iteration of the `for groom in get_sel_grooms()` loop: resolve the
connected Yeti nodes, convert the groom to curves, then process each Yeti
instance. -/
def process_one_groom (sc : Scene) (groom : String) (st : Gst) :
    Except String (List Event × Gst) :=
  let yeti_nodes := yetis_from_groom sc groom
  match groom_to_curves sc groom with
  | .error e => .error e
  | .ok (ec, gd) =>
    match process_yetis sc groom gd yeti_nodes st with
    | .error e => .error e
    | .ok (ey, st1) => .ok (ec ++ ey, st1)

/-- The outer groom loop of `guided_grooms`. -/
def process_grooms (sc : Scene) : List String → Gst → Except String (List Event × Gst)
  | [], st => .ok ([], st)
  | groom :: rest, st =>
    match process_one_groom sc groom st with
    | .error e => .error e
    | .ok (e1, st1) =>
      match process_grooms sc rest st1 with
      | .error e => .error e
      | .ok (e2, st2) => .ok (e1 ++ e2, st2)

/-- `guided_grooms()`: snapshot whether the graph window is open (refreshing
it first when it is), run the groom loop, and tear the panel off again at
the end when it was open initially. `w0` is the initial window state. -/
def guided_grooms (sc : Scene) (w0 : Bool) : Except String (List Event × Gst) :=
  let (e0, w1, graph_open) :=
    if w0 then
      let (re, w2) := refresh_graph w0
      (re, w2, true)
    else ([], w0, false)
  match get_sel_grooms sc with
  | .error e => .error e
  | .ok grooms =>
    match process_grooms sc grooms ⟨0, w1⟩ with
    | .error e => .error e
    | .ok (e1, st1) =>
      let e2 : List Event := if graph_open then [.tearOff] else []
      let w3 := if graph_open then true else st1.w
      .ok (e0 ++ e1 ++ e2, { st1 with w := w3 })

/-- Trace predicate: the event is a `pgYetiGraph -create` of the given node
type. -/
def isCreate (ty : String) : Event → Bool
  | .createNode _ t _ => t == ty
  | _ => false

/-- Number of graph-node creations of a given node type in a trace. -/
def createCount (tr : List Event) (ty : String) : Nat :=
  (tr.filter (isCreate ty)).length

/-- Trace predicate: the event is any graph-node creation. -/
def isCreateAny : Event → Bool
  | .createNode _ _ _ => true
  | _ => false

/-- Total number of graph-node creations in a trace. -/
def createTotal (tr : List Event) : Nat :=
  (tr.filter isCreateAny).length

/-- Trace predicate: the event is a warning. -/
def isWarning : Event → Bool
  | .warning _ => true
  | _ => false

/-- Number of warnings in a trace. -/
def warnCount (tr : List Event) : Nat :=
  (tr.filter isWarning).length

/-- The groom-import node list the orchestrator effectively uses for a Yeti
instance: the query filtered by the groom's identity, and when that is
empty, the query retried with the wildcard selection value. -/
def effective_groom_nodes (sc : Scene) (groom yeti : String) : List String :=
  let first := filter_imports 1 (some groom) (sc.imports yeti)
  if first.isEmpty then filter_imports 1 (some "*") (sc.imports yeti) else first

/-- Spec-side resolver for one selected object: a transform is replaced by
its first shape child, anything else stands for itself. -/
def resolve_shape (sc : Scene) (obj : String) : String :=
  if sc.objType obj == "transform" then (sc.shapes obj).headD obj else obj

/-- The parent transform of a curve shape (first entry of the host's
parent list). -/
def first_parent (sc : Scene) (c : String) : String :=
  (sc.parent c).headD ""

/-- The guide set connected to a curve's parent transform (first entry of
the host's object-set connection list). -/
def guide_set_of (sc : Scene) (c : String) : String :=
  (sc.objSets (first_parent sc c)).headD ""

/-- Closed-form trace of one convert/guide/blend triple for one
groom-import node, with fresh node names starting at counter `k`. -/
def tripleEvents (yeti g0 gi groom_node : String) (k : Nat) : List Event :=
  [.createNode yeti "convert" (nodeName k),
   .disconnectInput yeti (nodeName k) 0, .tearOff, .deleteWin,
   .connect yeti groom_node (nodeName k) 0, .tearOff, .deleteWin,
   .connect yeti g0 (nodeName k) 1, .tearOff, .deleteWin,
   .createNode yeti "guide" (nodeName (k + 1)),
   .disconnectInput yeti (nodeName (k + 1)) 0, .tearOff, .deleteWin,
   .connect yeti (nodeName k) (nodeName (k + 1)) 0, .tearOff, .deleteWin,
   .connect yeti gi (nodeName (k + 1)) 1, .tearOff, .deleteWin,
   .createNode yeti "blend" (nodeName (k + 2)),
   .disconnectInput yeti (nodeName (k + 2)) 0, .tearOff, .deleteWin,
   .connect yeti (nodeName k) (nodeName (k + 2)) 0, .tearOff, .deleteWin,
   .connect yeti (nodeName (k + 1)) (nodeName (k + 2)) 1, .tearOff, .deleteWin]

/-- Closed-form trace of the groom-import wiring loop. -/
def wireSpec (yeti g0 gi : String) : List String → Nat → List Event
  | [], _ => []
  | gn :: rest, k => tripleEvents yeti g0 gi gn k ++ wireSpec yeti g0 gi rest (k + 3)

/-- A host scene with nothing in it, used as the base of the concrete
scenes below. -/
def emptyScene : Scene where
  selection := []
  objType := fun _ => ""
  shapes := fun _ => []
  parent := fun _ => []
  objSets := fun _ => []
  yetis := fun _ => []
  convBefore := fun _ => []
  convAfter := fun _ => []
  imports := fun _ => []

/-- Scene with one Yeti instance holding one geometry import and two
groom imports matching groom "groomA". -/
def c1Scene : Scene :=
  { emptyScene with
    imports := fun y =>
      if y == "y1" then
        [⟨"geo1", 0, "body"⟩, ⟨"gr1", 1, "groomA"⟩, ⟨"gr2", 1, "groomA"⟩]
      else [] }

/-- Scene with one Yeti instance holding two geometry imports and one
matching groom import. -/
def c2Scene : Scene :=
  { emptyScene with
    imports := fun y =>
      if y == "y2" then
        [⟨"geoA", 0, "body"⟩, ⟨"geoB", 0, "body"⟩, ⟨"grA", 1, "groomA"⟩]
      else [] }

/-- Scene with one Yeti instance holding a geometry import but no
groom imports at all. -/
def c3Scene : Scene :=
  { emptyScene with
    imports := fun y => if y == "y3" then [⟨"geoA", 0, "body"⟩] else [] }

/-- Scene with one selected groom shape that is connected to no Yeti
instance, whose conversion creates one new curve. -/
def c4Scene : Scene :=
  { emptyScene with
    selection := ["gshape"]
    objType := fun s => if s == "gshape" then "pgYetiGroom" else ""
    convAfter := fun g => if g == "gshape" then ["c1"] else []
    parent := fun c => if c == "c1" then ["t1"] else []
    objSets := fun t => if t == "t1" then ["set1"] else [] }

/-- Scene whose conversion of groom "g" creates one new curve "c1" (curve
"old1" existed before), parented under "t1" which is connected to the
object set "set1". -/
def c5Scene : Scene :=
  { emptyScene with
    convBefore := fun g => if g == "g" then ["old1"] else []
    convAfter := fun g => if g == "g" then ["old1", "c1"] else []
    parent := fun c => if c == "c1" then ["t1"] else []
    objSets := fun t => if t == "t1" then ["set1"] else [] }

/-- Scene with import nodes of mixed types and geometry strings, for
observing literal selection matching. -/
def c7Scene : Scene :=
  { emptyScene with
    imports := fun y =>
      if y == "y7" then
        [⟨"imp1", 0, "body"⟩, ⟨"imp2", 1, "g"⟩, ⟨"imp3", 1, "*"⟩]
      else [] }

/-- Scene with a mixed selection: a transform whose shape is a groom, a
bare groom shape, and a non-groom shape. -/
def c8Scene : Scene :=
  { emptyScene with
    selection := ["tr1", "loose", "mesh1"]
    objType := fun s =>
      if s == "tr1" then "transform"
      else if s == "sh1" then "pgYetiGroom"
      else if s == "loose" then "pgYetiGroom"
      else if s == "mesh1" then "mesh"
      else ""
    shapes := fun s => if s == "tr1" then ["sh1"] else [] }

/-- Scene with a selected transform that has no shape children. -/
def c10Scene : Scene :=
  { emptyScene with
    selection := ["t1"]
    objType := fun s => if s == "t1" then "transform" else "" }

theorem wire_groom_nodes_eq (yeti g0 gi : String) : ∀ (gns : List String) (st : Gst),
    wire_groom_nodes yeti g0 gi gns st =
      (wireSpec yeti g0 gi gns st.k,
       if gns.isEmpty then st else ⟨st.k + 3 * gns.length, false⟩)
  | [], st => by simp [wire_groom_nodes, wireSpec]
  | gn :: rest, st => by
    have ih := wire_groom_nodes_eq yeti g0 gi rest ⟨st.k + 3, false⟩
    simp [wire_groom_nodes, create_node, connect_nodes, refresh_graph, wireSpec,
      tripleEvents, ih]
    split
    · rename_i h; subst h; simp
    · simp [Gst.mk.injEq]; omega

theorem process_yeti_pass (sc : Scene) (groom yeti g0 gs : String)
    (curves : List String) (gdrest : List (String × List String)) (st : Gst)
    (hgeo : filter_imports 0 none (sc.imports yeti) = [g0])
    (hgn : effective_groom_nodes sc groom yeti ≠ []) :
    process_yeti sc groom ((gs, curves) :: gdrest) yeti st =
      .ok ((Event.addGuideSet gs yeti ::
            Event.createNode yeti "import" (nodeName st.k) ::
            Event.disconnectInput yeti (nodeName st.k) 0 ::
            Event.renameNode yeti (nodeName st.k) gs ::
            Event.tearOff :: Event.deleteWin ::
            Event.setParam yeti "type" gs "setParamValueScalar" (PVal.scalar 2) ::
            Event.tearOff :: Event.deleteWin ::
            Event.setParam yeti "geometry" gs "setParamValueString " (PVal.str gs) ::
            Event.tearOff :: Event.deleteWin ::
            Event.setAttr (gs ++ ".maxNumberOfGuideInfluences") 1 ::
            (set_guide_attrs curves ++
             wireSpec yeti g0 gs (effective_groom_nodes sc groom yeti) (st.k + 1))),
           ⟨st.k + 1 + 3 * (effective_groom_nodes sc groom yeti).length, false⟩) := by
  have hioe : (effective_groom_nodes sc groom yeti).isEmpty = false := by
    simp [List.isEmpty_iff]; exact hgn
  by_cases hf : (filter_imports 1 (some groom) (sc.imports yeti)).isEmpty
  · have he : effective_groom_nodes sc groom yeti
        = filter_imports 1 (some "*") (sc.imports yeti) := by
      simp [effective_groom_nodes, hf]
    rw [he] at hioe ⊢
    simp [process_yeti, get_imports, import_type_codes, hf, hioe, hgeo, dict_get,
      create_node, set_param, set_param_cmds, connect_nodes, refresh_graph,
      wire_groom_nodes_eq, he]
  · have he : effective_groom_nodes sc groom yeti
        = filter_imports 1 (some groom) (sc.imports yeti) := by
      simp [effective_groom_nodes, hf]
    rw [he] at hioe ⊢
    simp [process_yeti, get_imports, import_type_codes, hf, hioe, hgeo, dict_get,
      create_node, set_param, set_param_cmds, connect_nodes, refresh_graph,
      wire_groom_nodes_eq, he]

theorem createCount_append (a b : List Event) (ty : String) :
    createCount (a ++ b) ty = createCount a ty + createCount b ty := by
  simp [createCount, List.filter_append]

theorem createCount_cons (e : Event) (tr : List Event) (ty : String) :
    createCount (e :: tr) ty
      = (if isCreate ty e then 1 else 0) + createCount tr ty := by
  simp only [createCount, List.filter_cons]
  split
  · simp [List.length_cons]; omega
  · simp

theorem set_guide_attrs_createCount (ty : String) :
    ∀ curves : List String, createCount (set_guide_attrs curves) ty = 0
  | [] => by simp [set_guide_attrs, createCount]
  | c :: rest => by
    simp [set_guide_attrs, createCount_append, createCount_cons, isCreate,
      set_guide_attrs_createCount ty rest]

theorem wireSpec_createCount (yeti g0 gi ty : String) (c : Nat)
    (h : ∀ gn k, createCount (tripleEvents yeti g0 gi gn k) ty = c) :
    ∀ (gns : List String) (k : Nat),
      createCount (wireSpec yeti g0 gi gns k) ty = gns.length * c
  | [], k => by simp [wireSpec, createCount]
  | gn :: rest, k => by
    simp [wireSpec, createCount_append, h,
      wireSpec_createCount yeti g0 gi ty c h rest (k + 3)]
    ring

theorem wireSpec_mem (yeti g0 gi : String) :
    ∀ (gns : List String) (k : Nat) (gn : String), gn ∈ gns →
    ∃ c g b,
      Event.createNode yeti "convert" c ∈ wireSpec yeti g0 gi gns k ∧
      Event.createNode yeti "guide" g ∈ wireSpec yeti g0 gi gns k ∧
      Event.createNode yeti "blend" b ∈ wireSpec yeti g0 gi gns k ∧
      Event.connect yeti gn c 0 ∈ wireSpec yeti g0 gi gns k ∧
      Event.connect yeti g0 c 1 ∈ wireSpec yeti g0 gi gns k ∧
      Event.connect yeti c g 0 ∈ wireSpec yeti g0 gi gns k ∧
      Event.connect yeti gi g 1 ∈ wireSpec yeti g0 gi gns k ∧
      Event.connect yeti c b 0 ∈ wireSpec yeti g0 gi gns k ∧
      Event.connect yeti g b 1 ∈ wireSpec yeti g0 gi gns k
  | gn0 :: rest, k, gn, hmem => by
    rcases List.mem_cons.mp hmem with h | h
    · subst h
      refine ⟨nodeName k, nodeName (k + 1), nodeName (k + 2),
        ?_, ?_, ?_, ?_, ?_, ?_, ?_, ?_, ?_⟩
      all_goals simp [wireSpec, tripleEvents]
    · obtain ⟨c, g, b, h1, h2, h3, h4, h5, h6, h7, h8, h9⟩ :=
        wireSpec_mem yeti g0 gi rest (k + 3) gn h
      refine ⟨c, g, b, ?_, ?_, ?_, ?_, ?_, ?_, ?_, ?_, ?_⟩
      all_goals (simp only [wireSpec]; exact List.mem_append_right _ (by assumption))

theorem set_guide_attrs_mem :
    ∀ (curves : List String) (c : String), c ∈ curves →
      Event.setAttr (c ++ ".weight") 10 ∈ set_guide_attrs curves ∧
      Event.setAttr (c ++ ".tipAttraction") 1 ∈ set_guide_attrs curves ∧
      Event.setAttr (c ++ ".baseAttraction") 1 ∈ set_guide_attrs curves
  | c0 :: rest, c, hmem => by
    rcases List.mem_cons.mp hmem with h | h
    · subst h
      refine ⟨?_, ?_, ?_⟩ <;> simp [set_guide_attrs]
    · obtain ⟨h1, h2, h3⟩ := set_guide_attrs_mem rest c h
      refine ⟨?_, ?_, ?_⟩
      all_goals (simp only [set_guide_attrs]; exact List.mem_append_right _ (by assumption))

theorem groom_to_curves_events (sc : Scene) (groom : String) (ec : List Event)
    (gd : List (String × List String))
    (hc : groom_to_curves sc groom = .ok (ec, gd)) :
    warnCount ec = 0 ∧ createTotal ec = 0 := by
  simp only [groom_to_curves] at hc
  split at hc
  · simp at hc
  · split at hc
    · simp only [Except.ok.injEq, Prod.mk.injEq] at hc
      obtain ⟨h1, h2⟩ := hc
      subst h1
      exact ⟨rfl, rfl⟩
    · split at hc
      · simp at hc
      · split at hc
        · simp at hc
        · simp only [Except.ok.injEq, Prod.mk.injEq] at hc
          obtain ⟨h1, h2⟩ := hc
          subst h1
          exact ⟨rfl, rfl⟩

theorem parents_of_ok (sc : Scene) :
    ∀ l : List String, (∀ c ∈ l, sc.parent c ≠ []) →
      ∃ ps, parents_of sc l = .ok ps
  | [], _ => ⟨[], rfl⟩
  | c :: rest, h => by
    obtain ⟨ps, hps⟩ := parents_of_ok sc rest (fun x hx => h x (List.mem_cons_of_mem _ hx))
    cases hsc : sc.parent c with
    | nil => exact absurd hsc (h c (List.mem_cons_self c rest))
    | cons p ps2 =>
      exact ⟨p :: ps, by simp [parents_of, hsc, head_or_err, hps]⟩

theorem filter_imports_some (code : Int) (s : String) (hs : s ≠ "") :
    ∀ l : List ImpNode, filter_imports code (some s) l
      = (l.filter (fun n => n.typeParam == code && n.geomParam == s)).map
          (fun n => n.name)
  | [] => rfl
  | n :: rest => by
    have ih := filter_imports_some code s hs rest
    by_cases h1 : n.typeParam = code <;> by_cases h2 : n.geomParam = s <;>
      simp [filter_imports, sel_given, hs, beq_iff_eq, List.filter_cons, h1, h2, ih]

theorem filter_imports_none (code : Int) :
    ∀ l : List ImpNode, filter_imports code none l
      = (l.filter (fun n => n.typeParam == code)).map (fun n => n.name)
  | [] => rfl
  | n :: rest => by
    have ih := filter_imports_none code rest
    by_cases h1 : n.typeParam = code <;>
      simp [filter_imports, sel_given, beq_iff_eq, List.filter_cons, h1, ih]

theorem resolve_sel_eq (sc : Scene) :
    ∀ l : List String,
      (∀ obj ∈ l, sc.objType obj = "transform" → sc.shapes obj ≠ []) →
      resolve_sel sc l = .ok ((l.map (resolve_shape sc)).filter
        (fun s => sc.objType s == "pgYetiGroom"))
  | [], _ => rfl
  | obj :: rest, h => by
    have ih := resolve_sel_eq sc rest (fun x hx => h x (List.mem_cons_of_mem _ hx))
    by_cases ht : sc.objType obj = "transform"
    · have hsh := h obj (List.mem_cons_self obj rest) ht
      obtain ⟨p, ps, hp⟩ : ∃ p ps, sc.shapes obj = p :: ps := by
        cases hsc : sc.shapes obj with
        | nil => exact absurd hsc hsh
        | cons a l2 => exact ⟨a, l2, rfl⟩
      by_cases hg : sc.objType p = "pgYetiGroom" <;>
        simp [resolve_sel, resolve_shape, ht, hp, head_or_err, ih,
          List.filter_cons, beq_iff_eq, hg]
    · by_cases hg : sc.objType obj = "pgYetiGroom" <;>
        simp [resolve_sel, resolve_shape, ht, ih, List.filter_cons, beq_iff_eq, hg]

/-- C1: for every plugin instance that passes both guards (exactly one
geometry-import node, at least one matching groom-import node after the
wildcard fallback) and a nonempty conversion mapping, exactly one
guide-import node is created, and for each of the n matching groom-import
nodes exactly one convert, one guide and one blend node are created and
wired as: groom-import into convert port 0 and geometry-import into
convert port 1; convert into guide port 0 and the new guide-import (named
after the guide set) into guide port 1; convert into blend port 0 and
guide into blend port 1. -/
theorem guided_grooms_wiring (sc : Scene) (groom yeti g0 gs : String)
    (curves : List String) (gdrest : List (String × List String)) (st : Gst)
    (hgeo : filter_imports 0 none (sc.imports yeti) = [g0])
    (hgn : effective_groom_nodes sc groom yeti ≠ []) :
    ∃ tr st1, process_yeti sc groom ((gs, curves) :: gdrest) yeti st = .ok (tr, st1) ∧
      createCount tr "import" = 1 ∧
      createCount tr "convert" = (effective_groom_nodes sc groom yeti).length ∧
      createCount tr "guide" = (effective_groom_nodes sc groom yeti).length ∧
      createCount tr "blend" = (effective_groom_nodes sc groom yeti).length ∧
      ∀ gn ∈ effective_groom_nodes sc groom yeti, ∃ c g b,
        Event.createNode yeti "convert" c ∈ tr ∧
        Event.createNode yeti "guide" g ∈ tr ∧
        Event.createNode yeti "blend" b ∈ tr ∧
        Event.connect yeti gn c 0 ∈ tr ∧
        Event.connect yeti g0 c 1 ∈ tr ∧
        Event.connect yeti c g 0 ∈ tr ∧
        Event.connect yeti gs g 1 ∈ tr ∧
        Event.connect yeti c b 0 ∈ tr ∧
        Event.connect yeti g b 1 ∈ tr := by
  have hpass := process_yeti_pass sc groom yeti g0 gs curves gdrest st hgeo hgn
  refine ⟨_, _, hpass, ?_, ?_, ?_, ?_, ?_⟩
  · have hw : createCount (wireSpec yeti g0 gs (effective_groom_nodes sc groom yeti)
        (st.k + 1)) "import" = (effective_groom_nodes sc groom yeti).length * 0 :=
      wireSpec_createCount yeti g0 gs "import" 0 (fun gn k => rfl) _ _
    simp [createCount_cons, createCount_append, isCreate,
      set_guide_attrs_createCount, hw]
  · have hw : createCount (wireSpec yeti g0 gs (effective_groom_nodes sc groom yeti)
        (st.k + 1)) "convert" = (effective_groom_nodes sc groom yeti).length * 1 :=
      wireSpec_createCount yeti g0 gs "convert" 1 (fun gn k => rfl) _ _
    simp [createCount_cons, createCount_append, isCreate,
      set_guide_attrs_createCount, hw]
  · have hw : createCount (wireSpec yeti g0 gs (effective_groom_nodes sc groom yeti)
        (st.k + 1)) "guide" = (effective_groom_nodes sc groom yeti).length * 1 :=
      wireSpec_createCount yeti g0 gs "guide" 1 (fun gn k => rfl) _ _
    simp [createCount_cons, createCount_append, isCreate,
      set_guide_attrs_createCount, hw]
  · have hw : createCount (wireSpec yeti g0 gs (effective_groom_nodes sc groom yeti)
        (st.k + 1)) "blend" = (effective_groom_nodes sc groom yeti).length * 1 :=
      wireSpec_createCount yeti g0 gs "blend" 1 (fun gn k => rfl) _ _
    simp [createCount_cons, createCount_append, isCreate,
      set_guide_attrs_createCount, hw]
  · intro gn hgn2
    obtain ⟨c, g, b, h1, h2, h3, h4, h5, h6, h7, h8, h9⟩ :=
      wireSpec_mem yeti g0 gs (effective_groom_nodes sc groom yeti) (st.k + 1) gn hgn2
    refine ⟨c, g, b, ?_, ?_, ?_, ?_, ?_, ?_, ?_, ?_, ?_⟩
    all_goals (simp [List.mem_append]; tauto)

/-- C1 witness: the concrete scene with one geometry import and two
matching groom imports. -/
theorem guided_grooms_wiring_witness :
    filter_imports 0 none (c1Scene.imports "y1") = ["geo1"] ∧
    effective_groom_nodes c1Scene "groomA" "y1" ≠ [] ∧
    (∃ tr st1, process_yeti c1Scene "groomA" [("set1", ["curve1"])] "y1" ⟨0, false⟩
        = .ok (tr, st1) ∧
      createCount tr "import" = 1 ∧
      createCount tr "convert" = (effective_groom_nodes c1Scene "groomA" "y1").length ∧
      createCount tr "guide" = (effective_groom_nodes c1Scene "groomA" "y1").length ∧
      createCount tr "blend" = (effective_groom_nodes c1Scene "groomA" "y1").length ∧
      ∀ gn ∈ effective_groom_nodes c1Scene "groomA" "y1", ∃ c g b,
        Event.createNode "y1" "convert" c ∈ tr ∧
        Event.createNode "y1" "guide" g ∈ tr ∧
        Event.createNode "y1" "blend" b ∈ tr ∧
        Event.connect "y1" gn c 0 ∈ tr ∧
        Event.connect "y1" "geo1" c 1 ∈ tr ∧
        Event.connect "y1" c g 0 ∈ tr ∧
        Event.connect "y1" "set1" g 1 ∈ tr ∧
        Event.connect "y1" c b 0 ∈ tr ∧
        Event.connect "y1" g b 1 ∈ tr) :=
  ⟨rfl, by decide,
   guided_grooms_wiring c1Scene "groomA" "y1" "geo1" "set1" ["curve1"] []
     ⟨0, false⟩ rfl (by decide)⟩

/-- C2: for every plugin instance whose geometry-import node count is not
exactly 1, given at least one matching groom-import node, the instance is
skipped entirely: exactly one warning is emitted, zero graph nodes are
created, and the threaded state is unchanged. -/
theorem process_yeti_geo_guard (sc : Scene) (groom : String)
    (gd : List (String × List String)) (yeti : String) (st : Gst)
    (hg : effective_groom_nodes sc groom yeti ≠ [])
    (hgeo : (filter_imports 0 none (sc.imports yeti)).length ≠ 1) :
    process_yeti sc groom gd yeti st = .ok ([.warning (geoMsg yeti)], st) ∧
    warnCount [Event.warning (geoMsg yeti)] = 1 ∧
    createTotal [Event.warning (geoMsg yeti)] = 0 := by
  have hioe : (effective_groom_nodes sc groom yeti).isEmpty = false := by
    simp [List.isEmpty_iff]; exact hg
  refine ⟨?_, rfl, rfl⟩
  by_cases hf : (filter_imports 1 (some groom) (sc.imports yeti)).isEmpty
  · have he : effective_groom_nodes sc groom yeti
        = filter_imports 1 (some "*") (sc.imports yeti) := by
      simp [effective_groom_nodes, hf]
    rw [he] at hioe
    simp [process_yeti, get_imports, import_type_codes, hf, hioe, hgeo]
  · have he : effective_groom_nodes sc groom yeti
        = filter_imports 1 (some groom) (sc.imports yeti) := by
      simp [effective_groom_nodes, hf]
    rw [he] at hioe
    simp [process_yeti, get_imports, import_type_codes, hf, hioe, hgeo]

/-- C2 witness: the concrete scene with two geometry imports and one
matching groom import. -/
theorem process_yeti_geo_guard_witness :
    effective_groom_nodes c2Scene "groomA" "y2" ≠ [] ∧
    (filter_imports 0 none (c2Scene.imports "y2")).length ≠ 1 ∧
    (process_yeti c2Scene "groomA" [] "y2" ⟨0, false⟩
        = .ok ([.warning (geoMsg "y2")], ⟨0, false⟩) ∧
      warnCount [Event.warning (geoMsg "y2")] = 1 ∧
      createTotal [Event.warning (geoMsg "y2")] = 0) :=
  ⟨by decide, by decide,
   process_yeti_geo_guard c2Scene "groomA" [] "y2" ⟨0, false⟩ (by decide) (by decide)⟩

/-- C3: groom-import nodes are first queried filtered by the groom
identity; when that yields none the query is retried with the wildcard
selection value; when that also yields none the instance is skipped with
exactly one warning, zero created nodes and unchanged state. -/
theorem process_yeti_groom_fallback (sc : Scene) (groom : String)
    (gd : List (String × List String)) (yeti : String) (st : Gst) :
    (filter_imports 1 (some groom) (sc.imports yeti) ≠ [] →
      effective_groom_nodes sc groom yeti
        = filter_imports 1 (some groom) (sc.imports yeti)) ∧
    (filter_imports 1 (some groom) (sc.imports yeti) = [] →
      effective_groom_nodes sc groom yeti
        = filter_imports 1 (some "*") (sc.imports yeti)) ∧
    (filter_imports 1 (some groom) (sc.imports yeti) = [] →
     filter_imports 1 (some "*") (sc.imports yeti) = [] →
      process_yeti sc groom gd yeti st = .ok ([.warning (noGroomsMsg yeti)], st) ∧
      warnCount [Event.warning (noGroomsMsg yeti)] = 1 ∧
      createTotal [Event.warning (noGroomsMsg yeti)] = 0) := by
  refine ⟨?_, ?_, ?_⟩
  · intro h
    have hf : (filter_imports 1 (some groom) (sc.imports yeti)).isEmpty = false := by
      simp [List.isEmpty_iff]; exact h
    simp [effective_groom_nodes, hf]
  · intro h
    simp [effective_groom_nodes, h]
  · intro h1 h2
    refine ⟨?_, rfl, rfl⟩
    simp [process_yeti, get_imports, import_type_codes, h1, h2]

/-- C3 witness: the concrete scene with no groom imports at all. -/
theorem process_yeti_groom_fallback_witness :
    process_yeti c3Scene "groomA" [] "y3" ⟨0, false⟩
      = .ok ([.warning (noGroomsMsg "y3")], ⟨0, false⟩) ∧
    warnCount [Event.warning (noGroomsMsg "y3")] = 1 ∧
    createTotal [Event.warning (noGroomsMsg "y3")] = 0 :=
  (process_yeti_groom_fallback c3Scene "groomA" [] "y3" ⟨0, false⟩).2.2 rfl rfl

/-- C4 counterexample: a selected groom with zero connected plugin
instances is still converted to curves - the conversion command is issued
and the guide set is modified - so "nothing happens for this groom" is
false on the code. -/
theorem guided_grooms_silent_cex :
    yetis_from_groom c4Scene "gshape" = [] ∧
    get_sel_grooms c4Scene = .ok ["gshape"] ∧
    guided_grooms c4Scene false =
      .ok ([.select "gshape", .convertToCurves "gshape", .setsAdd ["t1"] "set1"],
           ⟨0, false⟩) ∧
    Event.convertToCurves "gshape"
      ∈ [Event.select "gshape", Event.convertToCurves "gshape",
         Event.setsAdd ["t1"] "set1"] :=
  ⟨rfl, rfl, rfl, by decide⟩

/-- C4 amended: for every selected groom with no connected plugin
instances, no warning is emitted, no graph nodes are created and the
per-instance state is unchanged, but the groom is still converted to
curves - the emitted trace is exactly the conversion trace. -/
theorem process_one_groom_no_yetis (sc : Scene) (groom : String) (st : Gst)
    (ec : List Event) (gd : List (String × List String))
    (h : yetis_from_groom sc groom = [])
    (hc : groom_to_curves sc groom = .ok (ec, gd)) :
    process_one_groom sc groom st = .ok (ec, st) ∧
    warnCount ec = 0 ∧ createTotal ec = 0 := by
  obtain ⟨h1, h2⟩ := groom_to_curves_events sc groom ec gd hc
  refine ⟨?_, h1, h2⟩
  simp only [process_one_groom, hc, h, process_yetis, List.append_nil]

/-- C4 witness: the concrete scene with one groom, no Yeti connections and
one new curve. -/
theorem process_one_groom_no_yetis_witness :
    yetis_from_groom c4Scene "gshape" = [] ∧
    groom_to_curves c4Scene "gshape"
      = .ok ([.select "gshape", .convertToCurves "gshape", .setsAdd ["t1"] "set1"],
             [("set1", ["c1"])]) ∧
    (process_one_groom c4Scene "gshape" ⟨0, false⟩
        = .ok ([.select "gshape", .convertToCurves "gshape",
                .setsAdd ["t1"] "set1"], ⟨0, false⟩) ∧
      warnCount [Event.select "gshape", Event.convertToCurves "gshape",
        Event.setsAdd ["t1"] "set1"] = 0 ∧
      createTotal [Event.select "gshape", Event.convertToCurves "gshape",
        Event.setsAdd ["t1"] "set1"] = 0) :=
  ⟨rfl, rfl,
   process_one_groom_no_yetis c4Scene "gshape" ⟨0, false⟩
     [.select "gshape", .convertToCurves "gshape", .setsAdd ["t1"] "set1"]
     [("set1", ["c1"])] rfl rfl⟩

/-- C5: groom_to_curves returns the mapping from the guide-set handle to
the newly created curve shapes, and the empty mapping when the conversion
produced zero new curves. -/
theorem groom_to_curves_mapping (sc : Scene) (groom : String)
    (hp : ∀ c ∈ new_curves_of sc groom, sc.parent c ≠ [])
    (hs : ∀ c ∈ new_curves_of sc groom, sc.objSets (first_parent sc c) ≠ []) :
    (new_curves_of sc groom = [] →
      groom_to_curves sc groom = .ok ([.select groom, .convertToCurves groom], [])) ∧
    ∀ c0 rest, new_curves_of sc groom = c0 :: rest →
      ∃ ev, groom_to_curves sc groom =
        .ok (ev, [(guide_set_of sc c0, c0 :: rest)]) := by
  constructor
  · intro h
    simp [groom_to_curves, h, parents_of]
  · intro c0 rest h
    obtain ⟨ps, hps⟩ := parents_of_ok sc (new_curves_of sc groom) hp
    have hc0 : c0 ∈ new_curves_of sc groom := by
      rw [h]; exact List.mem_cons_self c0 rest
    obtain ⟨p, ps2, hpar⟩ : ∃ p ps2, sc.parent c0 = p :: ps2 := by
      cases hsc : sc.parent c0 with
      | nil => exact absurd hsc (hp c0 hc0)
      | cons a l2 => exact ⟨a, l2, rfl⟩
    have hfp : first_parent sc c0 = p := by simp [first_parent, hpar]
    have hs0 := hs c0 hc0
    rw [hfp] at hs0
    obtain ⟨q, qs2, hq⟩ : ∃ q qs2, sc.objSets p = q :: qs2 := by
      cases hsc : sc.objSets p with
      | nil => exact absurd hsc hs0
      | cons a l2 => exact ⟨a, l2, rfl⟩
    have hgs : guide_set_of sc c0 = q := by simp [guide_set_of, hfp, hq]
    rw [h] at hps
    refine ⟨[.select groom, .convertToCurves groom, .setsAdd ps q], ?_⟩
    simp only [groom_to_curves, h, hps, hpar, hq, head_or_err, hgs]

/-- C5 witness: the concrete scene whose conversion creates one curve. -/
theorem groom_to_curves_mapping_witness :
    new_curves_of c5Scene "g" = ["c1"] ∧
    (∃ ev, groom_to_curves c5Scene "g"
      = .ok (ev, [(guide_set_of c5Scene "c1", ["c1"])])) :=
  ⟨rfl,
   (groom_to_curves_mapping c5Scene "g" (by decide) (by decide)).2 "c1" [] (by decide)⟩

/-- C6: for every plugin instance that passes both guards, the attribute
maxNumberOfGuideInfluences is set to 1 on the guide-set object, and for
every curve produced by the conversion step the attributes weight=10,
tipAttraction=1 and baseAttraction=1 are set. -/
theorem guided_grooms_guide_attrs (sc : Scene) (groom yeti g0 gs : String)
    (curves : List String) (gdrest : List (String × List String)) (st : Gst)
    (hgeo : filter_imports 0 none (sc.imports yeti) = [g0])
    (hgn : effective_groom_nodes sc groom yeti ≠ []) :
    ∃ tr st1, process_yeti sc groom ((gs, curves) :: gdrest) yeti st = .ok (tr, st1) ∧
      Event.setAttr (gs ++ ".maxNumberOfGuideInfluences") 1 ∈ tr ∧
      ∀ c ∈ curves,
        Event.setAttr (c ++ ".weight") 10 ∈ tr ∧
        Event.setAttr (c ++ ".tipAttraction") 1 ∈ tr ∧
        Event.setAttr (c ++ ".baseAttraction") 1 ∈ tr := by
  have hpass := process_yeti_pass sc groom yeti g0 gs curves gdrest st hgeo hgn
  refine ⟨_, _, hpass, ?_, ?_⟩
  · simp
  · intro c hc
    obtain ⟨h1, h2, h3⟩ := set_guide_attrs_mem curves c hc
    refine ⟨?_, ?_, ?_⟩
    all_goals (simp [List.mem_append]; tauto)

/-- C6 witness: the concrete scene with one geometry import, two matching
groom imports and one converted curve. -/
theorem guided_grooms_guide_attrs_witness :
    filter_imports 0 none (c1Scene.imports "y1") = ["geo1"] ∧
    effective_groom_nodes c1Scene "groomA" "y1" ≠ [] ∧
    (∃ tr st1, process_yeti c1Scene "groomA" [("set1", ["curve1"])] "y1" ⟨0, false⟩
        = .ok (tr, st1) ∧
      Event.setAttr ("set1" ++ ".maxNumberOfGuideInfluences") 1 ∈ tr ∧
      ∀ c ∈ ["curve1"],
        Event.setAttr (c ++ ".weight") 10 ∈ tr ∧
        Event.setAttr (c ++ ".tipAttraction") 1 ∈ tr ∧
        Event.setAttr (c ++ ".baseAttraction") 1 ∈ tr) :=
  ⟨rfl, by decide,
   guided_grooms_guide_attrs c1Scene "groomA" "y1" "geo1" "set1" ["curve1"] []
     ⟨0, false⟩ rfl (by decide)⟩

/-- C7: with a non-empty selection filter, get_imports returns exactly
the import nodes whose type parameter equals the mapped integer code and whose
geometry parameter is literally string-equal to the filter, in host
listing order; without a filter it returns all nodes of the requested
type. -/
theorem get_imports_literal (sc : Scene) (yeti ty : String) (code : Int) (s : String)
    (hc : import_type_codes ty = some code) (hs : s ≠ "") :
    get_imports sc yeti ty (some s)
      = .ok (((sc.imports yeti).filter
          (fun n => n.typeParam == code && n.geomParam == s)).map (fun n => n.name)) ∧
    get_imports sc yeti ty none
      = .ok (((sc.imports yeti).filter
          (fun n => n.typeParam == code)).map (fun n => n.name)) := by
  constructor <;>
    simp [get_imports, hc, filter_imports_some code s hs, filter_imports_none]

/-- C7 witness: literal matching on a concrete import list; the "*"
filter matches only the node whose geometry parameter is literally "*". -/
theorem get_imports_literal_witness :
    get_imports c7Scene "y7" "groom" (some "g") = .ok ["imp2"] ∧
    get_imports c7Scene "y7" "groom" (some "*") = .ok ["imp3"] ∧
    get_imports c7Scene "y7" "groom" none = .ok ["imp2", "imp3"] :=
  ⟨((get_imports_literal c7Scene "y7" "groom" 1 "g" rfl (by decide)).1).trans rfl,
   ((get_imports_literal c7Scene "y7" "groom" 1 "*" rfl (by decide)).1).trans rfl,
   ((get_imports_literal c7Scene "y7" "groom" 1 "g" rfl (by decide)).2).trans rfl⟩

/-- C8: get_sel_grooms keeps, in selection order with duplicates, exactly
the selected handles that resolve to groom-typed shapes; it returns the
empty list for an empty selection and for selections of only non-groom
shapes. -/
theorem get_sel_grooms_spec (sc : Scene) :
    ((∀ obj ∈ sc.selection, sc.objType obj = "transform" → sc.shapes obj ≠ []) →
      get_sel_grooms sc = .ok ((sc.selection.map (resolve_shape sc)).filter
        (fun s => sc.objType s == "pgYetiGroom"))) ∧
    (sc.selection = [] → get_sel_grooms sc = .ok []) ∧
    ((∀ obj ∈ sc.selection,
        sc.objType obj ≠ "transform" ∧ sc.objType obj ≠ "pgYetiGroom") →
      get_sel_grooms sc = .ok []) := by
  refine ⟨?_, ?_, ?_⟩
  · intro h
    simpa [get_sel_grooms] using resolve_sel_eq sc sc.selection h
  · intro h
    simp [get_sel_grooms, h, resolve_sel]
  · intro h
    have h1 : ∀ obj ∈ sc.selection, sc.objType obj = "transform" → sc.shapes obj ≠ [] :=
      fun obj hobj ht => absurd ht (h obj hobj).1
    have h2 := resolve_sel_eq sc sc.selection h1
    simp only [get_sel_grooms] at h2 ⊢
    rw [h2]
    congr 1
    rw [List.filter_eq_nil_iff]
    intro a ha
    obtain ⟨obj, hobj, rfl⟩ := List.mem_map.mp ha
    have hobj2 := h obj hobj
    simp [resolve_shape, beq_iff_eq, hobj2.1, hobj2.2]

/-- C8 witness: a mixed concrete selection, the empty selection, and a
selection of one non-groom shape. -/
theorem get_sel_grooms_spec_witness :
    get_sel_grooms c8Scene = .ok ["sh1", "loose"] ∧
    get_sel_grooms { c8Scene with selection := [] } = .ok [] ∧
    get_sel_grooms { c8Scene with selection := ["mesh1"] } = .ok [] :=
  ⟨((get_sel_grooms_spec c8Scene).1 (by decide)).trans rfl,
   (get_sel_grooms_spec { c8Scene with selection := [] }).2.1 rfl,
   (get_sel_grooms_spec { c8Scene with selection := ["mesh1"] }).2.2 (by decide)⟩

/-- C9: after every return of create_node, set_param and connect_nodes the
graph editor window is closed: each operation ends with refresh_graph,
which deletes the window whenever it is listed as open. -/
theorem graph_ops_close_window :
    (∀ (yeti ty : String) (name : Option String) (st : Gst),
      ((create_node yeti ty name st).2.2).w = false) ∧
    (∀ (yeti param node : String) (val : PVal) (ty : String) (st : Gst)
      (r : List Event × Gst),
      set_param yeti param node val ty st = .ok r → r.2.w = false) ∧
    (∀ (yeti a b : String) (i : Nat) (st : Gst),
      ((connect_nodes yeti a b i st).2).w = false) := by
  refine ⟨?_, ?_, ?_⟩
  · intro yeti ty name st
    cases name <;> simp [create_node, refresh_graph]
  · intro yeti param node val ty st r h
    unfold set_param at h
    cases hc : set_param_cmds ty with
    | none => rw [hc] at h; simp at h
    | some cmd =>
      rw [hc] at h
      simp only [refresh_graph, if_pos] at h
      simp only [Except.ok.injEq] at h
      subst h
      rfl
  · intro yeti a b i st
    simp [connect_nodes, refresh_graph]

/-- C9 witness: each operation run from an open-window state ends with the
window closed. -/
theorem graph_ops_close_window_witness :
    ((create_node "y" "import" none ⟨0, true⟩).2.2).w = false ∧
    (([Event.setParam "y" "type" "n" "setParamValueScalar" (PVal.scalar 2),
       Event.tearOff, Event.deleteWin], (⟨5, false⟩ : Gst)) :
        List Event × Gst).2.w = false ∧
    ((connect_nodes "y" "a" "b" 0 ⟨0, true⟩).2).w = false :=
  ⟨graph_ops_close_window.1 "y" "import" none ⟨0, true⟩,
   graph_ops_close_window.2.1 "y" "type" "n" (PVal.scalar 2) "scalar" ⟨5, true⟩ _ rfl,
   graph_ops_close_window.2.2 "y" "a" "b" 0 ⟨0, true⟩⟩

/-- C10: get_sel_grooms fails on a selection containing a transform with
no shape children: indexing the absent child list raises, modelled as a
TypeError result. -/
theorem get_sel_grooms_missing_shape_error :
    c10Scene.objType "t1" = "transform" ∧
    c10Scene.shapes "t1" = [] ∧
    "t1" ∈ c10Scene.selection ∧
    get_sel_grooms c10Scene = .error "TypeError" :=
  ⟨rfl, rfl, by decide, rfl⟩

end YetiUtils
